import Mathlib

/-!
# Airport ride pooling — shallow embedding and verification

This file embeds the core of the airport ride-pooling backend
(`src/utils/distanceCalculator.js`, the `RidePool` mongoose model, the
`PricingEngine` and the `MatchingEngine` services, `src/config/config.js`)
into Lean and proves properties of the embedded operations.

Modelling conventions:
* JavaScript numbers are modelled as exact rationals (`ℚ`); the special
  values `Infinity`, `-Infinity` and `NaN`, which the detour search can
  produce by dividing by a zero route distance, are modelled by the
  `JsNum` type together with IEEE-style division (`jsDiv`) and strict
  comparison (`jsLt`).
* `Math.round(x * 100) / 100` (round to cents, half toward `+∞`) is
  modelled by `jsRound2`; `Math.ceil` by `Int.ceil`.
* The great-circle metric (`geolib.getDistance`, a float haversine) is an
  external library call; route computations are parameterised over an
  abstract distance function `dist : α → α → ℚ` on locations.
* Persistence and the Redis lock store are modelled by explicit state:
  mongoose documents become structures, a repository lookup becomes an
  `Option` parameter, the set of unexpired locks becomes a function
  `String → Option String` (key to stored token), and writes a request
  update would issue are returned as data.  The mongoose pre-save hook
  increments `version` on each committed mutation.
-/

namespace ARP

/-- JavaScript number: a finite rational, `Infinity`, `-Infinity` or `NaN`. -/
inductive JsNum where
  | fin (q : ℚ)
  | inf
  | negInf
  | nan
deriving DecidableEq, Repr

/-- JavaScript division producing `Infinity` / `-Infinity` / `NaN` on a zero
divisor, as in `(newDistance - originalDistance) / originalDistance`. -/
def jsDiv (a b : ℚ) : JsNum :=
  if b = 0 then
    if 0 < a then .inf else if a < 0 then .negInf else .nan
  else
    .fin (a / b)

/-- JavaScript strict `<` on numbers: any comparison with `NaN` is false,
`Infinity` is above every finite value, `-Infinity` below. -/
def jsLt : JsNum → JsNum → Bool
  | .nan, _ => false
  | _, .nan => false
  | .fin a, .fin b => decide (a < b)
  | .fin _, .inf => true
  | .fin _, .negInf => false
  | .inf, _ => false
  | .negInf, .negInf => false
  | .negInf, .fin _ => true
  | .negInf, .inf => true

/-- `Math.round(q * 100) / 100`: round to two decimals, halves toward `+∞`. -/
def jsRound2 (q : ℚ) : ℚ :=
  (⌊q * 100 + 1 / 2⌋ : ℚ) / 100

/-! ## `src/config/config.js` — default configuration values -/

namespace Config

def MAX_POOL_SIZE : ℤ := 4
def MAX_LUGGAGE_PER_CAB : ℤ := 6
def BASE_RATE_PER_KM : ℚ := 2
def BASE_RATE_PER_MIN : ℚ := 1 / 2
def MINIMUM_FARE : ℚ := 5
def AIRPORT_FEE : ℚ := 3

end Config

/-! ## `src/utils/distanceCalculator.js` -/

/-- Stop type tag (`'pickup'` / `'dropoff'`). -/
inductive StopType where
  | pickup
  | dropoff
deriving DecidableEq, Repr

/-- A route stop (`stopSchema`); `passengerId` and `address` are absent
(`none`) on the raw stops created inside `calculateDetour`. -/
structure Stop (α : Type) where
  stype : StopType
  location : α
  passengerId : Option ℕ
  address : Option String
  sequence : ℕ
deriving DecidableEq, Repr

namespace DistanceCalculator

variable {α : Type}

/-- `calculateRouteDistance`: sum of consecutive pairwise distances. -/
def calculateRouteDistance (dist : α → α → ℚ) : List (Stop α) → ℚ
  | [] => 0
  | [_] => 0
  | a :: b :: rest => dist a.location b.location + calculateRouteDistance dist (b :: rest)

/-- `estimateDuration`: `Math.ceil(distanceKm / 40 * 60)` minutes. -/
def estimateDuration (distanceKm : ℚ) : ℤ :=
  ⌈distanceKm / 40 * 60⌉

/-- The `newRoute.forEach((stop, idx) => stop.sequence = idx)` reindexing
pass, started at index `i`. -/
def resequenceFrom (i : ℕ) : List (Stop α) → List (Stop α)
  | [] => []
  | s :: rest => { s with sequence := i } :: resequenceFrom (i + 1) rest

/-- One candidate of the insertion search: splice the new dropoff at
`dropoffPos` into the original route, then the new pickup at `pickupPos`
(`pickupPos ≤ dropoffPos`), then reindex sequences. -/
def candidateRoute (stops : List (Stop α)) (newPickup newDropoff : α)
    (pickupPos dropoffPos : ℕ) : List (Stop α) :=
  resequenceFrom 0
    ((stops.insertIdx dropoffPos ⟨.dropoff, newDropoff, none, none, dropoffPos⟩).insertIdx
      pickupPos ⟨.pickup, newPickup, none, none, pickupPos⟩)

/-- The `(pickupPos, dropoffPos)` pairs visited by the two nested loops, in
iteration order: `pickupPos ∈ [0, n]`, `dropoffPos ∈ [pickupPos, n]`. -/
def insertionPairs (n : ℕ) : List (ℕ × ℕ) :=
  (List.range (n + 1)).flatMap fun p =>
    (List.range' p (n + 1 - p)).map fun d => (p, d)

/-- Result record of `calculateDetour`. -/
structure DetourResult (α : Type) where
  detourPercentage : JsNum
  bestRoute : Option (List (Stop α))
  newDistance : ℚ
deriving DecidableEq, Repr

/-- Loop body of the insertion search: compute the candidate's distance and
detour and keep it iff it strictly improves the running minimum. -/
def detourStep (dist : α → α → ℚ) (stops : List (Stop α)) (newPickup newDropoff : α)
    (originalDistance : ℚ) (st : JsNum × Option (List (Stop α)) × ℚ) (pd : ℕ × ℕ) :
    JsNum × Option (List (Stop α)) × ℚ :=
  let newRoute := candidateRoute stops newPickup newDropoff pd.1 pd.2
  let newDistance := calculateRouteDistance dist newRoute
  let detour := jsDiv (newDistance - originalDistance) originalDistance
  if jsLt detour st.1 then (detour, some newRoute, newDistance) else st

/-- `calculateDetour(originalRoute, newPickup, newDropoff)`. -/
def calculateDetour (dist : α → α → ℚ) (originalRoute : List (Stop α))
    (newPickup newDropoff : α) : DetourResult α :=
  if originalRoute.length = 0 then
    { detourPercentage := .fin 0
      bestRoute := some [⟨.pickup, newPickup, none, none, 0⟩,
                         ⟨.dropoff, newDropoff, none, none, 1⟩]
      newDistance := dist newPickup newDropoff }
  else
    let originalDistance := calculateRouteDistance dist originalRoute
    let r := (insertionPairs originalRoute.length).foldl
      (detourStep dist originalRoute newPickup newDropoff originalDistance)
      (.inf, none, 0)
    { detourPercentage := r.1, bestRoute := r.2.1, newDistance := r.2.2 }

/-- Total distance of the candidate for the insertion pair `pd`. -/
def candDist (dist : α → α → ℚ) (stops : List (Stop α)) (newPickup newDropoff : α)
    (pd : ℕ × ℕ) : ℚ :=
  calculateRouteDistance dist (candidateRoute stops newPickup newDropoff pd.1 pd.2)

/-- The loop state of the insertion search once some candidate `y` is the
running best (finite detour, non-null route). -/
def detourState (dist : α → α → ℚ) (stops : List (Stop α)) (newPickup newDropoff : α)
    (originalDistance : ℚ) (y : ℕ × ℕ) : JsNum × Option (List (Stop α)) × ℚ :=
  (.fin ((candDist dist stops newPickup newDropoff y - originalDistance) / originalDistance),
   some (candidateRoute stops newPickup newDropoff y.1 y.2),
   candDist dist stops newPickup newDropoff y)

/-- Proof-side view of the running minimum: the pair held by the loop after
scanning `L` with current best `y`, replacing only on strict improvement. -/
def selAcc (g : ℕ × ℕ → ℚ) : ℕ × ℕ → List (ℕ × ℕ) → ℕ × ℕ
  | y, [] => y
  | y, x :: L => selAcc g (if g x < g y then x else y) L

/-- Weak lexicographic order on insertion pairs: lower pickup index first,
then lower dropoff index. -/
def pairLexLe (a b : ℕ × ℕ) : Prop :=
  a.1 < b.1 ∨ (a.1 = b.1 ∧ a.2 ≤ b.2)

/-- Strict lexicographic order on insertion pairs. -/
def pairLexLt (a b : ℕ × ℕ) : Prop :=
  a.1 < b.1 ∨ (a.1 = b.1 ∧ a.2 < b.2)

/-- Specification of the non-empty branch of `calculateDetour` with a
positive original distance: the result is the `(n+2)`-stop candidate of
minimum total distance over all insertions of the pickup at `p ∈ [0, n]`
and the dropoff at `d ∈ [p, n]`, with detour fraction
`(newDistance - originalDistance) / originalDistance`, ties broken by
lowest pickup index then lowest dropoff index. -/
def DetourMinSpec (dist : α → α → ℚ) (stops : List (Stop α)) (newPickup newDropoff : α) :
    Prop :=
  ∃ p d, p ≤ d ∧ d ≤ stops.length ∧
    calculateDetour dist stops newPickup newDropoff =
      { detourPercentage :=
          .fin ((candDist dist stops newPickup newDropoff (p, d) -
              calculateRouteDistance dist stops) / calculateRouteDistance dist stops)
        bestRoute := some (candidateRoute stops newPickup newDropoff p d)
        newDistance := candDist dist stops newPickup newDropoff (p, d) } ∧
    (candidateRoute stops newPickup newDropoff p d).length = stops.length + 2 ∧
    (∀ q e, q ≤ e → e ≤ stops.length →
      candDist dist stops newPickup newDropoff (p, d) ≤
        candDist dist stops newPickup newDropoff (q, e)) ∧
    (∀ q e, q ≤ e → e ≤ stops.length →
      candDist dist stops newPickup newDropoff (q, e) =
        candDist dist stops newPickup newDropoff (p, d) →
      pairLexLe (p, d) (q, e))

end DistanceCalculator

/-! ## `RidePool` mongoose model (`ridePoolSchema`) -/

inductive PoolStatus where
  | forming
  | matched
  | active
  | completed
  | cancelled
deriving DecidableEq, Repr

/-- A pool-passenger entry (`passengerSchema`); `status` is one of
`waiting / picked_up / dropped_off / cancelled`. -/
structure Passenger (α : Type) where
  userId : ℕ
  requestId : ℕ
  pickupLocation : α
  pickupAddress : String
  dropoffLocation : α
  dropoffAddress : String
  price : ℚ
  status : String
  passengerCount : ℤ
  luggageCount : ℤ
deriving DecidableEq, Repr

structure Occupancy where
  seats : ℤ
  luggage : ℤ
deriving DecidableEq, Repr

structure Vehicle where
  vtype : String
  capacity : ℤ
  luggageCapacity : ℤ
deriving DecidableEq, Repr

structure RouteInfo (α : Type) where
  stops : List (Stop α)
  totalDistance : ℚ
  totalDuration : ℤ
deriving DecidableEq, Repr

structure PricingInfo where
  basePrice : ℚ
  surgeFactor : ℚ
  totalPrice : ℚ
  poolingDiscount : ℚ
deriving DecidableEq, Repr

structure RidePool (α : Type) where
  status : PoolStatus
  passengers : List (Passenger α)
  route : RouteInfo α
  vehicle : Vehicle
  currentOccupancy : Occupancy
  pricing : PricingInfo
  version : ℤ
  cancelReason : Option String
deriving DecidableEq, Repr

namespace RidePool

variable {α : Type}

/-- `canAccommodate(passengers, luggage)`. -/
def canAccommodate (pool : RidePool α) (passengers luggage : ℤ) : Bool :=
  decide (pool.currentOccupancy.seats + passengers ≤ pool.vehicle.capacity) &&
  decide (pool.currentOccupancy.luggage + luggage ≤ pool.vehicle.luggageCapacity)

/-- `addPassenger(passengerData)`: push the entry and grow the occupancy. -/
def addPassenger (pool : RidePool α) (passengerData : Passenger α) : RidePool α :=
  { pool with
      passengers := pool.passengers ++ [passengerData]
      currentOccupancy :=
        ⟨pool.currentOccupancy.seats + passengerData.passengerCount,
         pool.currentOccupancy.luggage + passengerData.luggageCount⟩ }

/-- `removePassenger(userId)`: if a passenger with this `userId` exists,
shrink the occupancy by their counts and filter them out; the `Bool` is the
method's return value. -/
def removePassenger (pool : RidePool α) (userId : ℕ) : RidePool α × Bool :=
  match pool.passengers.find? (fun p => p.userId == userId) with
  | some passenger =>
    ({ pool with
        currentOccupancy :=
          ⟨pool.currentOccupancy.seats - passenger.passengerCount,
           pool.currentOccupancy.luggage - passenger.luggageCount⟩
        passengers := pool.passengers.filter (fun p => ! (p.userId == userId)) },
     true)
  | none => (pool, false)

end RidePool

/-! ## `RideRequest` mongoose model (fields the matching engine reads);
the schema validates `1 ≤ passengers ≤ 4`, `0 ≤ luggage ≤ 6`,
`0 ≤ detourTolerance ≤ 1`. -/

structure RideRequest (α : Type) where
  userId : ℕ
  reqId : ℕ
  pickupLocation : α
  pickupAddress : String
  dropoffLocation : α
  dropoffAddress : String
  passengers : ℤ
  luggage : ℤ
  detourTolerance : ℚ
deriving DecidableEq, Repr

/-! ## `PricingEngine` service -/

namespace PricingEngine

variable {α : Type}

/-- `calculateBasePrice(distanceKm, durationMin)`. -/
def calculateBasePrice (distanceKm durationMin : ℚ) : ℚ :=
  let distancePrice := distanceKm * Config.BASE_RATE_PER_KM
  let timePrice := durationMin * Config.BASE_RATE_PER_MIN
  let basePrice := distancePrice + timePrice + Config.AIRPORT_FEE
  max basePrice Config.MINIMUM_FARE

/-- `calculateDemandMultiplier(activeRequests, availableCabs)`. -/
def calculateDemandMultiplier (activeRequests availableCabs : ℚ) : ℚ :=
  let ratio := activeRequests / max availableCabs 1
  if ratio < 1 / 2 then 1
  else if ratio < 1 then 12 / 10
  else if ratio < 3 / 2 then 15 / 10
  else if ratio < 2 then 2
  else 25 / 10

/-- `getTimeMultiplier(date)`, as a function of `date.getHours()`. -/
def getTimeMultiplier (hour : ℕ) : ℚ :=
  if 6 ≤ hour ∧ hour < 9 then 13 / 10
  else if 17 ≤ hour ∧ hour < 20 then 14 / 10
  else if hour < 6 then 12 / 10
  else 1

/-- `calculatePoolingDiscount(passengersCount, detourPercentage)`. -/
def calculatePoolingDiscount (passengersCount detourPercentage : ℚ) : ℚ :=
  let baseDiscount := min ((passengersCount - 1) * (15 / 100)) (45 / 100)
  let detourPenalty := detourPercentage * (3 / 10)
  max (baseDiscount - detourPenalty) (1 / 10)

/-- `getDistanceDiscount(distanceKm)`; the branches are checked in source
order: `> 20` first, then `> 50`. -/
def getDistanceDiscount (distanceKm : ℚ) : ℚ :=
  if distanceKm > 20 then 9 / 10
  else if distanceKm > 50 then 17 / 20
  else 1

/-- Input entry of `ensureFairPricing`: what this passenger would pay alone. -/
structure PassengerPrice where
  passengerId : ℕ
  individualPrice : ℚ
deriving DecidableEq, Repr

/-- Output entry of `ensureFairPricing`. -/
structure FairPrice where
  passengerId : ℕ
  price : ℚ
deriving DecidableEq, Repr

/-- `ensureFairPricing(passengers, totalPoolPrice)`: cap the pool total at
`0.85 ×` the solo-price sum only when it exceeds that sum, then distribute
the adjusted total proportionally to solo-price shares, rounding to cents. -/
def ensureFairPricing (passengers : List PassengerPrice) (totalPoolPrice : ℚ) :
    List FairPrice :=
  let individualPrices := passengers.map (·.individualPrice)
  let totalIndividualPrice := individualPrices.sum
  let adjustedTotal :=
    if totalPoolPrice > totalIndividualPrice then totalIndividualPrice * (85 / 100)
    else totalPoolPrice
  passengers.map fun p =>
    ⟨p.passengerId, jsRound2 (p.individualPrice / totalIndividualPrice * adjustedTotal)⟩

/-- `calculatePassengerPrice(rideRequest, pool, detourPercentage)` on the
`demandData = null` path taken by `addToExistingPool`: base price on the
passenger's direct distance, then the pool's stored surge factor (`|| 1.0`),
the time-of-day multiplier for the injected clock hour, the pooling
discount (pool size including the new passenger), the distance discount,
and rounding to cents. -/
def calculatePassengerPrice (dist : α → α → ℚ) (hour : ℕ) (rideRequest : RideRequest α)
    (pool : RidePool α) (detourPercentage : ℚ) : ℚ :=
  let directDistance := dist rideRequest.pickupLocation rideRequest.dropoffLocation
  let directDuration := DistanceCalculator.estimateDuration directDistance
  let price0 := calculateBasePrice directDistance (directDuration : ℚ)
  let price1 := price0 * (if pool.pricing.surgeFactor = 0 then 1 else pool.pricing.surgeFactor)
  let price2 := price1 * getTimeMultiplier hour
  let currentPassengers : ℚ := (pool.passengers.length : ℚ) + 1
  let price3 := price2 * (1 - calculatePoolingDiscount currentPassengers detourPercentage)
  let price4 := price3 * getDistanceDiscount directDistance
  jsRound2 price4

end PricingEngine

/-- The solo-price sum (`totalIndividualPrice`) inside `ensureFairPricing`. -/
def soloTotal (passengers : List PricingEngine.PassengerPrice) : ℚ :=
  (passengers.map (·.individualPrice)).sum

/-- The `adjustedTotal` of `ensureFairPricing`: the pool total is replaced
by `0.85 ×` the solo sum only when it exceeds that sum. -/
def adjustedPoolTotal (passengers : List PricingEngine.PassengerPrice)
    (totalPoolPrice : ℚ) : ℚ :=
  if totalPoolPrice > soloTotal passengers then soloTotal passengers * (85 / 100)
  else totalPoolPrice

/-! ## `MatchingEngine` service -/

namespace MatchingEngine

variable {α : Type}

/-- The `poolData.calculatedDetour` payload consumed by `addToExistingPool`
on its success path (a finite detour fraction and a non-null best route). -/
structure DetourData (α : Type) where
  detourPercentage : ℚ
  bestRoute : List (Stop α)
  newDistance : ℚ
deriving DecidableEq, Repr

/-- The `bestRoute.map((stop, idx) => ...)` pass of `addToExistingPool`:
fill a missing `passengerId` with the new rider's, reindex `sequence`, and
set `address` from the new request by stop type, starting at index `i`. -/
def applyRouteFrom (rideRequest : RideRequest α) (i : ℕ) : List (Stop α) → List (Stop α)
  | [] => []
  | s :: rest =>
    { s with
        passengerId := some (s.passengerId.getD rideRequest.userId)
        sequence := i
        address := some (if s.stype = .pickup then rideRequest.pickupAddress
                         else rideRequest.dropoffAddress) } ::
    applyRouteFrom rideRequest (i + 1) rest

/-- `addToExistingPool(poolData, rideRequest)` under the pool's lock:
re-check capacity, price the passenger, push them, install the optimizer's
best route, promote `forming → matched` at two or more passengers, and save
(version bump).  `none` models the `{ success: false }` returns. -/
def addToExistingPool (dist : α → α → ℚ) (hour : ℕ) (pool : RidePool α)
    (rideRequest : RideRequest α) (calculatedDetour : DetourData α) :
    Option (RidePool α × ℚ) :=
  if pool.canAccommodate rideRequest.passengers rideRequest.luggage then
    let price := PricingEngine.calculatePassengerPrice dist hour rideRequest pool
      calculatedDetour.detourPercentage
    let passengerData : Passenger α :=
      ⟨rideRequest.userId, rideRequest.reqId,
       rideRequest.pickupLocation, rideRequest.pickupAddress,
       rideRequest.dropoffLocation, rideRequest.dropoffAddress,
       price, "waiting", rideRequest.passengers, rideRequest.luggage⟩
    let pool1 := pool.addPassenger passengerData
    let newDistance := calculatedDetour.newDistance
    let pool2 := { pool1 with route :=
      ⟨applyRouteFrom rideRequest 0 calculatedDetour.bestRoute,
       newDistance, DistanceCalculator.estimateDuration newDistance⟩ }
    let pool3 :=
      if 2 ≤ pool2.passengers.length ∧ pool2.status = .forming then
        { pool2 with status := .matched }
      else pool2
    some ({ pool3 with version := pool3.version + 1 }, price)
  else
    none

/-- `createNewPool(rideRequest)`: a fresh `forming` pool holding only this
request's passenger, their direct two-stop route, the vehicle defaults from
config, and the request's own counts as occupancy. -/
def createNewPool (dist : α → α → ℚ) (rideRequest : RideRequest α) : RidePool α :=
  let directDistance := dist rideRequest.pickupLocation rideRequest.dropoffLocation
  let basePrice := PricingEngine.calculateBasePrice directDistance
    ((DistanceCalculator.estimateDuration directDistance : ℤ) : ℚ)
  { status := .forming
    passengers := [⟨rideRequest.userId, rideRequest.reqId,
      rideRequest.pickupLocation, rideRequest.pickupAddress,
      rideRequest.dropoffLocation, rideRequest.dropoffAddress,
      basePrice, "waiting", rideRequest.passengers, rideRequest.luggage⟩]
    route :=
      ⟨[⟨.pickup, rideRequest.pickupLocation, some rideRequest.userId,
         some rideRequest.pickupAddress, 0⟩,
        ⟨.dropoff, rideRequest.dropoffLocation, some rideRequest.userId,
         some rideRequest.dropoffAddress, 1⟩],
       directDistance, DistanceCalculator.estimateDuration directDistance⟩
    vehicle := ⟨"sedan", Config.MAX_POOL_SIZE, Config.MAX_LUGGAGE_PER_CAB⟩
    currentOccupancy := ⟨rideRequest.passengers, rideRequest.luggage⟩
    pricing := ⟨basePrice, 1, basePrice, 0⟩
    version := 0
    cancelReason := none }

/-- `cancelRide(userId, poolId)` body under the lock, given the loaded pool:
remove the passenger (error if absent); if the pool became empty mark it
`cancelled`, otherwise drop the passenger's stops, reindex and recompute the
route; save (version bump).  The second component collects the
`RideRequest.findByIdAndUpdate` status writes the code then issues: the
lookup runs on the pool's already-filtered passenger list. -/
def cancelRide (dist : α → α → ℚ) (pool : RidePool α) (userId : ℕ) :
    Except String (RidePool α × List (ℕ × String)) :=
  match pool.removePassenger userId with
  | (_, false) => .error "Passenger not found in pool"
  | (pool1, true) =>
    let pool2 :=
      if pool1.passengers.length = 0 then
        { pool1 with status := .cancelled, cancelReason := some "All passengers cancelled" }
      else
        let newStops := pool1.route.stops.filter (fun s => ! (s.passengerId == some userId))
        { pool1 with route :=
          ⟨DistanceCalculator.resequenceFrom 0 newStops,
           DistanceCalculator.calculateRouteDistance dist newStops,
           DistanceCalculator.estimateDuration
             (DistanceCalculator.calculateRouteDistance dist newStops)⟩ }
    let pool3 := { pool2 with version := pool2.version + 1 }
    let updates :=
      match pool3.passengers.find? (fun p => p.userId == userId) with
      | some passenger => [(passenger.requestId, "cancelled")]
      | none => ([] : List (ℕ × String))
    .ok (pool3, updates)

/-- `acquireLock(key)`: a single Redis `SET key value PX timeout NX`; the
store maps a key to the token of its unexpired lock, if any.  When the set
fails (an unexpired lock exists) the code throws immediately — there is no
retry loop. -/
def acquireLock (store : String → Option String) (key : String) (newToken : String) :
    Except String String :=
  match store key with
  | some _ => .error ("Failed to acquire lock for " ++ key)
  | none => .ok newToken

/-- `cancelRide(userId, poolId)` including the lock acquisition: the
`acquireLock` call sits outside any `try`, so its failure propagates to the
caller unchanged.  `poolLookup` models `RidePool.findById(poolId)`. -/
def cancelRideLocked (dist : α → α → ℚ) (store : String → Option String)
    (newToken : String) (poolId : String) (poolLookup : Option (RidePool α))
    (userId : ℕ) : Except String (RidePool α × List (ℕ × String)) :=
  match acquireLock store ("pool:" ++ poolId) newToken with
  | .error e => .error e
  | .ok _ =>
    match poolLookup with
    | none => .error "Pool not found"
    | some pool => cancelRide dist pool userId

end MatchingEngine

/-! ## Helper lemmas -/

theorem sum_map_mul_const (ps : List PricingEngine.PassengerPrice) (c : ℚ) :
    (ps.map fun p => p.individualPrice * c).sum = soloTotal ps * c := by
  induction ps with
  | nil => simp [soloTotal]
  | cons a l ih => simp [soloTotal, List.map_cons, List.sum_cons, add_mul, ih]

theorem soloTotal_pos (ps : List PricingEngine.PassengerPrice) (h1 : ps ≠ [])
    (h2 : ∀ p ∈ ps, 0 < p.individualPrice) : 0 < soloTotal ps := by
  refine List.sum_pos _ ?_ ?_
  · intro q hq
    obtain ⟨p, hp, rfl⟩ := List.mem_map.1 hq
    exact h2 p hp
  · simpa using h1

theorem removePassenger_of_find {α : Type} (pool : RidePool α) (uid : ℕ)
    (passenger : Passenger α)
    (hfind : pool.passengers.find? (fun p => p.userId == uid) = some passenger) :
    pool.removePassenger uid =
      ({ pool with
          currentOccupancy :=
            ⟨pool.currentOccupancy.seats - passenger.passengerCount,
             pool.currentOccupancy.luggage - passenger.luggageCount⟩
          passengers := pool.passengers.filter (fun p => ! (p.userId == uid)) }, true) := by
  unfold RidePool.removePassenger
  rw [hfind]

theorem removePassenger_of_find_none {α : Type} (pool : RidePool α) (uid : ℕ)
    (hfind : pool.passengers.find? (fun p => p.userId == uid) = none) :
    pool.removePassenger uid = (pool, false) := by
  unfold RidePool.removePassenger
  rw [hfind]

theorem find?_filter_userId_none {α : Type} (l : List (Passenger α)) (u : ℕ) :
    (l.filter fun p => ! (p.userId == u)).find? (fun p => p.userId == u) = none := by
  refine List.find?_eq_none.2 fun x hx => ?_
  have hmem := (List.mem_filter.1 hx).2
  simpa using hmem

theorem cancelRide_ok_destruct {α : Type} (dist : α → α → ℚ) (pool : RidePool α)
    (uid : ℕ) (pool' : RidePool α) (ups : List (ℕ × String))
    (h : MatchingEngine.cancelRide dist pool uid = .ok (pool', ups)) :
    ∃ passenger, pool.passengers.find? (fun p => p.userId == uid) = some passenger ∧
      pool'.vehicle = pool.vehicle ∧
      pool'.currentOccupancy.seats = pool.currentOccupancy.seats - passenger.passengerCount ∧
      pool'.currentOccupancy.luggage = pool.currentOccupancy.luggage - passenger.luggageCount ∧
      pool'.passengers = pool.passengers.filter (fun p => ! (p.userId == uid)) ∧
      ups = [] ∧
      (pool'.passengers = [] → pool'.status = .cancelled) := by
  unfold MatchingEngine.cancelRide at h
  cases hfind : pool.passengers.find? (fun p => p.userId == uid) with
  | none =>
    rw [removePassenger_of_find_none pool uid hfind] at h
    exact absurd h (by simp)
  | some passenger =>
    rw [removePassenger_of_find pool uid passenger hfind] at h
    dsimp only at h
    refine ⟨passenger, rfl, ?_⟩
    by_cases hlen : (pool.passengers.filter (fun p => ! (p.userId == uid))).length = 0
    · rw [if_pos hlen] at h
      rw [find?_filter_userId_none] at h
      dsimp only at h
      simp only [Except.ok.injEq, Prod.mk.injEq] at h
      obtain ⟨h1, h2⟩ := h
      subst h1
      subst h2
      refine ⟨rfl, rfl, rfl, rfl, rfl, fun _ => rfl⟩
    · rw [if_neg hlen] at h
      rw [find?_filter_userId_none] at h
      dsimp only at h
      simp only [Except.ok.injEq, Prod.mk.injEq] at h
      obtain ⟨h1, h2⟩ := h
      subst h1
      subst h2
      refine ⟨rfl, rfl, rfl, rfl, rfl, fun hemp => ?_⟩
      exact absurd (by simpa using congrArg List.length hemp) hlen

namespace DistanceCalculator

variable {α : Type}

theorem detourStep_init (dist : α → α → ℚ) (stops : List (Stop α)) (np nd : α)
    (od : ℚ) (hod : 0 < od) (x : ℕ × ℕ) :
    detourStep dist stops np nd od (.inf, none, 0) x = detourState dist stops np nd od x := by
  unfold detourStep detourState candDist jsDiv
  dsimp only
  rw [if_neg (ne_of_gt hod)]
  simp [jsLt]

theorem detourStep_state (dist : α → α → ℚ) (stops : List (Stop α)) (np nd : α)
    (od : ℚ) (hod : 0 < od) (y x : ℕ × ℕ) :
    detourStep dist stops np nd od (detourState dist stops np nd od y) x =
      detourState dist stops np nd od
        (if candDist dist stops np nd x < candDist dist stops np nd y then x else y) := by
  unfold detourStep detourState candDist jsDiv
  dsimp only
  rw [if_neg (ne_of_gt hod)]
  by_cases hlt : calculateRouteDistance dist (candidateRoute stops np nd x.1 x.2) <
      calculateRouteDistance dist (candidateRoute stops np nd y.1 y.2)
  · have hdiv : (calculateRouteDistance dist (candidateRoute stops np nd x.1 x.2) - od) / od <
        (calculateRouteDistance dist (candidateRoute stops np nd y.1 y.2) - od) / od :=
      (div_lt_div_iff_of_pos_right hod).2 (sub_lt_sub_right hlt od)
    rw [if_pos hlt]
    simp [jsLt, hdiv]
  · have hdiv : ¬ ((calculateRouteDistance dist (candidateRoute stops np nd x.1 x.2) - od) / od <
        (calculateRouteDistance dist (candidateRoute stops np nd y.1 y.2) - od) / od) :=
      fun hcon => hlt (by linarith [(div_lt_div_iff_of_pos_right hod).1 hcon])
    rw [if_neg hlt]
    simp [jsLt, hdiv]

theorem foldl_detourStep (dist : α → α → ℚ) (stops : List (Stop α)) (np nd : α)
    (od : ℚ) (hod : 0 < od) :
    ∀ (L : List (ℕ × ℕ)) (y : ℕ × ℕ),
      L.foldl (detourStep dist stops np nd od) (detourState dist stops np nd od y) =
        detourState dist stops np nd od (selAcc (candDist dist stops np nd) y L) := by
  intro L
  induction L with
  | nil => intro y; rfl
  | cons x L ih =>
    intro y
    rw [List.foldl_cons, detourStep_state dist stops np nd od hod y x, ih]
    rfl

theorem selAcc_strict (g : ℕ × ℕ → ℚ) :
    ∀ (L : List (ℕ × ℕ)) (y : ℕ × ℕ),
      selAcc g y L = y ∨ (selAcc g y L ∈ L ∧ g (selAcc g y L) < g y) := by
  intro L
  induction L with
  | nil => intro y; exact Or.inl rfl
  | cons x L ih =>
    intro y
    by_cases hlt : g x < g y
    · have := ih x
      rw [selAcc, if_pos hlt]
      rcases this with h | ⟨hmem, hg⟩
      · exact Or.inr ⟨by rw [h]; exact List.mem_cons_self x L, by rw [h]; exact hlt⟩
      · exact Or.inr ⟨List.mem_cons_of_mem x hmem, lt_trans hg hlt⟩
    · have := ih y
      rw [selAcc, if_neg hlt]
      rcases this with h | ⟨hmem, hg⟩
      · exact Or.inl h
      · exact Or.inr ⟨List.mem_cons_of_mem x hmem, hg⟩

theorem selAcc_le_init (g : ℕ × ℕ → ℚ) (L : List (ℕ × ℕ)) (y : ℕ × ℕ) :
    g (selAcc g y L) ≤ g y := by
  rcases selAcc_strict g L y with h | ⟨-, h⟩
  · rw [h]
  · exact le_of_lt h

theorem selAcc_le (g : ℕ × ℕ → ℚ) :
    ∀ (L : List (ℕ × ℕ)) (y : ℕ × ℕ), ∀ x ∈ L, g (selAcc g y L) ≤ g x := by
  intro L
  induction L with
  | nil => intro y x hx; simp at hx
  | cons a L ih =>
    intro y x hx
    rcases List.mem_cons.1 hx with rfl | hx
    · by_cases hlt : g x < g y
      · rw [selAcc, if_pos hlt]
        exact selAcc_le_init g L x
      · rw [selAcc, if_neg hlt]
        exact le_trans (selAcc_le_init g L y) (not_lt.1 hlt)
    · rw [selAcc]
      split
      · exact ih a x hx
      · exact ih y x hx

theorem selAcc_tie (g : ℕ × ℕ → ℚ) :
    ∀ (L : List (ℕ × ℕ)) (y : ℕ × ℕ), List.Pairwise pairLexLt (y :: L) →
      ∀ x, (x = y ∨ x ∈ L) → g x = g (selAcc g y L) → pairLexLe (selAcc g y L) x := by
  intro L
  induction L with
  | nil =>
    intro y _ x hx hgx
    rcases hx with hxy | hx
    · rw [hxy]
      exact Or.inr ⟨rfl, le_refl _⟩
    · simp at hx
  | cons a L ih =>
    intro y hpw x hx hgx
    obtain ⟨hyhead, hpwa⟩ := List.pairwise_cons.1 hpw
    obtain ⟨haL, hpwL⟩ := List.pairwise_cons.1 hpwa
    have hya : pairLexLt y a := hyhead a (List.mem_cons_self a L)
    have hyL : ∀ b ∈ L, pairLexLt y b := fun b hb => hyhead b (List.mem_cons_of_mem a hb)
    rw [selAcc] at hgx ⊢
    by_cases hlt : g a < g y
    · rw [if_pos hlt] at hgx ⊢
      have hpw' : List.Pairwise pairLexLt (a :: L) := List.pairwise_cons.2 ⟨haL, hpwL⟩
      rcases hx with hxy | hx
      · exfalso
        have h1 : g (selAcc g a L) ≤ g a := selAcc_le_init g L a
        have h2 : g (selAcc g a L) < g y := lt_of_le_of_lt h1 hlt
        rw [hxy] at hgx
        rw [← hgx] at h2
        exact lt_irrefl _ h2
      · rcases List.mem_cons.1 hx with hxa | hxL
        · exact ih a hpw' x (Or.inl hxa) hgx
        · exact ih a hpw' x (Or.inr hxL) hgx
    · rw [if_neg hlt] at hgx ⊢
      have hpw' : List.Pairwise pairLexLt (y :: L) := List.pairwise_cons.2 ⟨hyL, hpwL⟩
      rcases hx with hxy | hx
      · exact ih y hpw' x (Or.inl hxy) hgx
      · rcases List.mem_cons.1 hx with hxa | hxL
        · rcases selAcc_strict g L y with hsel | ⟨-, hstrict⟩
          · rw [hsel]
            rw [hxa]
            rcases hya with h | ⟨h1, h2⟩
            · exact Or.inl h
            · exact Or.inr ⟨h1, le_of_lt h2⟩
          · exfalso
            have hya' : g y ≤ g a := not_lt.1 hlt
            have : g (selAcc g y L) < g a := lt_of_lt_of_le hstrict hya'
            rw [hxa] at hgx
            rw [← hgx] at this
            exact lt_irrefl _ this
        · exact ih y hpw' x (Or.inr hxL) hgx

theorem pairwise_flatMap_of {β γ : Type} (R : γ → γ → Prop) (f : β → List γ)
    (l : List β) (h1 : ∀ b ∈ l, List.Pairwise R (f b))
    (h2 : List.Pairwise (fun a b => ∀ x ∈ f a, ∀ y ∈ f b, R x y) l) :
    List.Pairwise R (l.flatMap f) := by
  induction l with
  | nil => simp
  | cons a l ih =>
    rw [List.flatMap_cons]
    refine List.pairwise_append.2 ⟨h1 a (List.mem_cons_self a l), ?_, ?_⟩
    · exact ih (fun b hb => h1 b (List.mem_cons_of_mem a hb)) (List.pairwise_cons.1 h2).2
    · intro x hx y hy
      obtain ⟨b, hb, hyb⟩ := List.mem_flatMap.1 hy
      exact (List.pairwise_cons.1 h2).1 b hb x hx y hyb

theorem pairwise_insertionPairs (n : ℕ) :
    List.Pairwise pairLexLt (insertionPairs n) := by
  refine pairwise_flatMap_of pairLexLt _ _ ?_ ?_
  · intro p _
    refine List.Pairwise.map _ ?_ (List.pairwise_lt_range' p (n + 1 - p))
    intro a b hab
    exact Or.inr ⟨rfl, hab⟩
  · refine List.Pairwise.imp_of_mem ?_ (List.pairwise_lt_range (n + 1))
    intro a b ha hb hab x hx y hy
    obtain ⟨d1, -, hx1⟩ := List.mem_map.1 hx
    obtain ⟨d2, -, hy1⟩ := List.mem_map.1 hy
    rw [← hx1, ← hy1]
    exact Or.inl hab

theorem mem_insertionPairs (n p d : ℕ) :
    (p, d) ∈ insertionPairs n ↔ p ≤ d ∧ d ≤ n := by
  constructor
  · intro h
    obtain ⟨p', hp', hmem⟩ := List.mem_flatMap.1 h
    obtain ⟨d', hd', heq⟩ := List.mem_map.1 hmem
    have h1 : p' = p := congrArg Prod.fst heq
    have h2 : d' = d := congrArg Prod.snd heq
    rw [List.mem_range] at hp'
    have hd'' := List.mem_range'_1.1 hd'
    omega
  · rintro ⟨h1, h2⟩
    refine List.mem_flatMap.2 ⟨p, List.mem_range.2 (by omega), ?_⟩
    exact List.mem_map.2 ⟨d, List.mem_range'_1.2 ⟨h1, by omega⟩, rfl⟩

theorem insertionPairs_head (n : ℕ) :
    insertionPairs n =
      (0, 0) :: (((List.range' 1 n).map fun d => (0, d)) ++
        ((List.range n).map Nat.succ).flatMap fun p =>
          (List.range' p (n + 1 - p)).map fun d => (p, d)) := by
  rw [insertionPairs, List.range_succ_eq_map, List.flatMap_cons]
  rw [show n + 1 - 0 = n + 1 from rfl, List.range'_succ]
  rfl

theorem resequenceFrom_length (i : ℕ) (l : List (Stop α)) :
    (resequenceFrom i l).length = l.length := by
  induction l generalizing i with
  | nil => rfl
  | cons s rest ih => simp [resequenceFrom, ih]

theorem candidateRoute_length (stops : List (Stop α)) (np nd : α) (p d : ℕ)
    (hp : p ≤ d) (hd : d ≤ stops.length) :
    (candidateRoute stops np nd p d).length = stops.length + 2 := by
  rw [candidateRoute, resequenceFrom_length]
  rw [List.length_insertIdx _ _ (by rw [List.length_insertIdx _ _ hd]; omega)]
  rw [List.length_insertIdx _ _ hd]

end DistanceCalculator

namespace DistanceCalculator

variable {α : Type}

theorem calculateRouteDistance_nonneg (dist : α → α → ℚ) (hdist : ∀ a b, 0 ≤ dist a b) :
    ∀ l : List (Stop α), 0 ≤ calculateRouteDistance dist l := by
  intro l
  induction l with
  | nil => simp [calculateRouteDistance]
  | cons a rest ih =>
    cases rest with
    | nil => simp [calculateRouteDistance]
    | cons b r =>
      rw [calculateRouteDistance]
      exact add_nonneg (hdist _ _) ih

theorem detourStep_zero_keeps (dist : α → α → ℚ) (stops : List (Stop α)) (np nd : α)
    (hdist : ∀ a b, 0 ≤ dist a b) (x : ℕ × ℕ) :
    detourStep dist stops np nd 0 (.inf, none, 0) x = (.inf, none, 0) := by
  unfold detourStep jsDiv
  dsimp only
  rw [if_pos rfl]
  have hnn : 0 ≤ calculateRouteDistance dist (candidateRoute stops np nd x.1 x.2) :=
    calculateRouteDistance_nonneg dist hdist _
  rcases eq_or_lt_of_le hnn with heq | hpos
  · rw [← heq]
    norm_num [jsLt]
  · simp [jsLt, sub_zero, hpos, not_lt.2 (le_of_lt hpos)]

theorem foldl_detourStep_zero (dist : α → α → ℚ) (stops : List (Stop α)) (np nd : α)
    (hdist : ∀ a b, 0 ≤ dist a b) :
    ∀ L : List (ℕ × ℕ),
      L.foldl (detourStep dist stops np nd 0) (.inf, none, 0) = (.inf, none, 0) := by
  intro L
  induction L with
  | nil => rfl
  | cons x L ih =>
    rw [List.foldl_cons, detourStep_zero_keeps dist stops np nd hdist x, ih]

/-- C3 (confirmed): on an empty stop list, `calculateDetour` returns detour
fraction 0, the two-stop route `[pickup, dropoff]` and the direct distance;
on a non-empty `n`-stop list whose total distance is positive it returns the
`(n+2)`-stop candidate of minimum total distance over all insertions of the
pickup at `p ∈ [0, n]` and the dropoff at `d ∈ [p, n]` (dropoff never
preceding its own pickup), with detour fraction
`(newDistance - originalDistance) / originalDistance` and ties broken by
lowest pickup index then lowest dropoff index (`DetourMinSpec`).  The
embedding is a pure function of its inputs, so identical inputs yield the
identical route. -/
theorem calculateDetour_minimal_insertion (dist : α → α → ℚ) (stops : List (Stop α)) (np nd : α)
    (hne : stops ≠ []) (hod : 0 < calculateRouteDistance dist stops) :
    calculateDetour dist ([] : List (Stop α)) np nd =
      { detourPercentage := .fin 0
        bestRoute := some [⟨.pickup, np, none, none, 0⟩, ⟨.dropoff, nd, none, none, 1⟩]
        newDistance := dist np nd } ∧
    DetourMinSpec dist stops np nd := by
  refine ⟨rfl, ?_⟩
  have hlen0 : ¬ stops.length = 0 := fun h => hne (List.length_eq_zero.1 h)
  obtain ⟨rest, hrest⟩ : ∃ rest, insertionPairs stops.length = (0, 0) :: rest :=
    ⟨_, insertionPairs_head stops.length⟩
  have hpw : List.Pairwise pairLexLt ((0, 0) :: rest) :=
    hrest ▸ pairwise_insertionPairs stops.length
  set g := candDist dist stops np nd with hg
  set sel := selAcc g (0, 0) rest with hsel
  have hres : calculateDetour dist stops np nd =
      { detourPercentage :=
          .fin ((g sel - calculateRouteDistance dist stops) / calculateRouteDistance dist stops)
        bestRoute := some (candidateRoute stops np nd sel.1 sel.2)
        newDistance := g sel } := by
    unfold calculateDetour
    rw [if_neg hlen0]
    dsimp only
    rw [hrest, List.foldl_cons,
      detourStep_init dist stops np nd (calculateRouteDistance dist stops) hod,
      foldl_detourStep dist stops np nd (calculateRouteDistance dist stops) hod]
    rfl
  have hmemsel : sel ∈ insertionPairs stops.length := by
    rw [hrest]
    rcases selAcc_strict g rest (0, 0) with h | ⟨h, -⟩
    · rw [hsel, h]; exact List.mem_cons_self _ _
    · exact List.mem_cons_of_mem _ h
  obtain ⟨hpd, hdn⟩ := (mem_insertionPairs stops.length sel.1 sel.2).1 hmemsel
  refine ⟨sel.1, sel.2, hpd, hdn, hres, candidateRoute_length stops np nd sel.1 sel.2 hpd hdn,
    ?_, ?_⟩
  · intro q e h1 h2
    have hmem : (q, e) ∈ insertionPairs stops.length :=
      (mem_insertionPairs stops.length q e).2 ⟨h1, h2⟩
    rw [hrest] at hmem
    rcases List.mem_cons.1 hmem with heq | hmem'
    · have := selAcc_le_init g rest (0, 0)
      rw [heq]
      exact this
    · exact selAcc_le g rest (0, 0) _ hmem'
  · intro q e h1 h2 hgeq
    have hmem : (q, e) ∈ insertionPairs stops.length :=
      (mem_insertionPairs stops.length q e).2 ⟨h1, h2⟩
    rw [hrest] at hmem
    have hform : (q, e) = (0, 0) ∨ (q, e) ∈ rest := List.mem_cons.1 hmem
    exact selAcc_tie g rest (0, 0) hpw (q, e) hform hgeq

/-- C10 (confirmed): on a non-empty stop list whose total route distance is
zero (the metric being nonnegative), every candidate detour is `Infinity`
or `NaN`, no candidate passes the strict-improvement comparison against the
initial `Infinity` bound, and `calculateDetour` returns `bestRoute = null`,
`bestDistance = 0` and `detourPercentage = Infinity`. -/
theorem calculateDetour_zero_route_degenerate (dist : α → α → ℚ) (stops : List (Stop α)) (np nd : α)
    (hne : stops ≠ []) (hdist : ∀ a b, 0 ≤ dist a b)
    (hzero : calculateRouteDistance dist stops = 0) :
    calculateDetour dist stops np nd =
      { detourPercentage := .inf, bestRoute := none, newDistance := 0 } := by
  have hlen0 : ¬ stops.length = 0 := fun h => hne (List.length_eq_zero.1 h)
  unfold calculateDetour
  rw [if_neg hlen0]
  dsimp only
  rw [hzero, foldl_detourStep_zero dist stops np nd hdist]


/-- Witness for C3: the theorem applied to the concrete two-stop route
`0 → 1` under the metric `|a - b|`, inserting pickup `5` and dropoff `7`. -/
theorem calculateDetour_minimal_insertion_witness :
    ([⟨.pickup, (0 : ℚ), none, none, 0⟩, ⟨.dropoff, 1, none, none, 1⟩] : List (Stop ℚ)) ≠ [] ∧
    0 < calculateRouteDistance (fun a b : ℚ => |a - b|)
      [⟨.pickup, (0 : ℚ), none, none, 0⟩, ⟨.dropoff, 1, none, none, 1⟩] ∧
    (calculateDetour (fun a b : ℚ => |a - b|) ([] : List (Stop ℚ)) 5 7 =
      { detourPercentage := .fin 0
        bestRoute := some [⟨.pickup, 5, none, none, 0⟩, ⟨.dropoff, 7, none, none, 1⟩]
        newDistance := |(5 : ℚ) - 7| } ∧
     DetourMinSpec (fun a b : ℚ => |a - b|)
       [⟨.pickup, (0 : ℚ), none, none, 0⟩, ⟨.dropoff, 1, none, none, 1⟩] 5 7) :=
  ⟨by simp, by norm_num [calculateRouteDistance],
   calculateDetour_minimal_insertion (fun a b : ℚ => |a - b|)
     [⟨.pickup, (0 : ℚ), none, none, 0⟩, ⟨.dropoff, 1, none, none, 1⟩] 5 7
     (by simp) (by norm_num [calculateRouteDistance])⟩

/-- Witness for C10: the theorem applied to a concrete two-stop route with
both stops at coordinate `3`, so the total route distance is `0`. -/
theorem calculateDetour_zero_route_degenerate_witness :
    ([⟨.pickup, (3 : ℚ), none, none, 0⟩, ⟨.dropoff, 3, none, none, 1⟩] : List (Stop ℚ)) ≠ [] ∧
    calculateRouteDistance (fun a b : ℚ => |a - b|)
      [⟨.pickup, (3 : ℚ), none, none, 0⟩, ⟨.dropoff, 3, none, none, 1⟩] = 0 ∧
    calculateDetour (fun a b : ℚ => |a - b|)
      [⟨.pickup, (3 : ℚ), none, none, 0⟩, ⟨.dropoff, 3, none, none, 1⟩] 5 7 =
      { detourPercentage := .inf, bestRoute := none, newDistance := 0 } :=
  ⟨by simp, by norm_num [calculateRouteDistance],
   calculateDetour_zero_route_degenerate (fun a b : ℚ => |a - b|)
     [⟨.pickup, (3 : ℚ), none, none, 0⟩, ⟨.dropoff, 3, none, none, 1⟩] 5 7
     (by simp) (fun a b => abs_nonneg _) (by norm_num [calculateRouteDistance])⟩

end DistanceCalculator

/-- C1 (corrected): as stated the claim fails — `ensureFairPricing` caps the
pool total at `0.85 ×` the solo sum only when the pool total exceeds the
full solo sum, so for `totalPoolPrice` between `0.85 Σ` and `Σ` the returned
prices sum to more than `0.85 Σ`.  Amended: each returned price is the
cent-rounded solo-share of `adjustedPoolTotal` (the pool total, replaced by
`0.85 ×` the solo sum only when it exceeds that sum); the unrounded shares
sum exactly to `adjustedPoolTotal`, which equals `0.85 ×` the solo sum
precisely when the pool total exceeds the solo sum. -/
theorem ensureFairPricing_proportional_capped
    (ps : List PricingEngine.PassengerPrice) (T : ℚ)
    (h1 : ps ≠ []) (h2 : ∀ p ∈ ps, 0 < p.individualPrice) :
    PricingEngine.ensureFairPricing ps T =
      ps.map (fun p => ⟨p.passengerId,
        jsRound2 (p.individualPrice / soloTotal ps * adjustedPoolTotal ps T)⟩) ∧
    (ps.map fun p => p.individualPrice / soloTotal ps * adjustedPoolTotal ps T).sum =
      adjustedPoolTotal ps T ∧
    (T > soloTotal ps → adjustedPoolTotal ps T = (85 / 100) * soloTotal ps) ∧
    (T ≤ soloTotal ps → adjustedPoolTotal ps T = T) := by
  have hS : soloTotal ps ≠ 0 := ne_of_gt (soloTotal_pos ps h1 h2)
  refine ⟨rfl, ?_, ?_, ?_⟩
  · have hmap : (ps.map fun p => p.individualPrice / soloTotal ps * adjustedPoolTotal ps T) =
        ps.map fun p => p.individualPrice * (adjustedPoolTotal ps T / soloTotal ps) := by
      refine List.map_congr_left fun p _ => ?_
      field_simp
    rw [hmap, sum_map_mul_const]
    field_simp
  · intro h
    simp [adjustedPoolTotal, h, mul_comm]
  · intro h
    simp [adjustedPoolTotal, not_lt.2 h]

/-- Counterexample for C1 as stated: two passengers with solo price 10 each
and a pool total of 19 (below the solo sum 20, so no cap applies): the
returned prices sum to 19, which exceeds `0.85 × 20 = 17`. -/
theorem ensureFairPricing_085_bound_counterexample :
    ((PricingEngine.ensureFairPricing [⟨1, 10⟩, ⟨2, 10⟩] 19).map (·.price)).sum = 19 ∧
    ¬ ((PricingEngine.ensureFairPricing [⟨1, 10⟩, ⟨2, 10⟩] 19).map (·.price)).sum ≤
        (85 / 100) * (10 + 10) := by
  norm_num [PricingEngine.ensureFairPricing, jsRound2]

/-- Witness for C1's amended theorem: two passengers with solo prices 10 and
30 and pool total 100 (above the solo sum 40, so the cap applies). -/
theorem ensureFairPricing_proportional_capped_witness :
    (([⟨1, 10⟩, ⟨2, 30⟩] : List PricingEngine.PassengerPrice) ≠ [] ∧
      ∀ p ∈ ([⟨1, 10⟩, ⟨2, 30⟩] : List PricingEngine.PassengerPrice),
        0 < p.individualPrice) ∧
    (PricingEngine.ensureFairPricing [⟨1, 10⟩, ⟨2, 30⟩] 100 =
      ([⟨1, 10⟩, ⟨2, 30⟩] : List PricingEngine.PassengerPrice).map (fun p =>
        ⟨p.passengerId, jsRound2 (p.individualPrice / soloTotal [⟨1, 10⟩, ⟨2, 30⟩] *
          adjustedPoolTotal [⟨1, 10⟩, ⟨2, 30⟩] 100)⟩) ∧
     (([⟨1, 10⟩, ⟨2, 30⟩] : List PricingEngine.PassengerPrice).map fun p =>
        p.individualPrice / soloTotal [⟨1, 10⟩, ⟨2, 30⟩] *
          adjustedPoolTotal [⟨1, 10⟩, ⟨2, 30⟩] 100).sum =
       adjustedPoolTotal [⟨1, 10⟩, ⟨2, 30⟩] 100 ∧
     ((100 : ℚ) > soloTotal [⟨1, 10⟩, ⟨2, 30⟩] →
       adjustedPoolTotal [⟨1, 10⟩, ⟨2, 30⟩] 100 = (85 / 100) * soloTotal [⟨1, 10⟩, ⟨2, 30⟩]) ∧
     ((100 : ℚ) ≤ soloTotal [⟨1, 10⟩, ⟨2, 30⟩] →
       adjustedPoolTotal [⟨1, 10⟩, ⟨2, 30⟩] 100 = 100)) :=
  ⟨⟨by simp, by intro p hp; simp only [List.mem_cons, List.not_mem_nil, or_false] at hp; rcases hp with rfl | rfl <;> norm_num⟩,
   ensureFairPricing_proportional_capped [⟨1, 10⟩, ⟨2, 30⟩] 100 (by simp)
     (by intro p hp; simp only [List.mem_cons, List.not_mem_nil, or_false] at hp; rcases hp with rfl | rfl <;> norm_num)⟩

/-- C4 (code_bug): the claim says `getDistanceDiscount` returns `0.85` for
distances above 50 km, but the source checks `> 20` before `> 50`, so the
`0.85` branch is unreachable: at 60 km the code returns `0.90`, contradicting
the inline comment on its own `> 50` branch.  The other two bands of the
claim hold. -/
theorem getDistanceDiscount_gt50_returns_090 :
    PricingEngine.getDistanceDiscount 60 = 9 / 10 ∧
    PricingEngine.getDistanceDiscount 60 ≠ 17 / 20 ∧
    PricingEngine.getDistanceDiscount 30 = 9 / 10 ∧
    PricingEngine.getDistanceDiscount 10 = 1 := by
  refine ⟨?_, ?_, ?_, ?_⟩ <;> norm_num [PricingEngine.getDistanceDiscount]

/-- Counterexample for C5 as stated: with the default rates,
`calculateBasePrice(10, 15) = 10×2 + 15×0.5 + 3 = 30.5`, not `33.5` (the
repository's own test asserts `30.5`). -/
theorem calculateBasePrice_10_15_is_30_5 :
    PricingEngine.calculateBasePrice 10 15 = 61 / 2 ∧
    PricingEngine.calculateBasePrice 10 15 ≠ 67 / 2 := by
  constructor <;>
    norm_num [PricingEngine.calculateBasePrice, Config.BASE_RATE_PER_KM,
      Config.BASE_RATE_PER_MIN, Config.AIRPORT_FEE, Config.MINIMUM_FARE, max_def]

/-- C5 (corrected): `calculateBasePrice` is
`max(distanceKm × ratePerKm + durationMin × ratePerMin + airportFee,
minimumFare)` with the configured default rates, and at `(10, 15)` it equals
`30.5` (the claim's `33.5` is wrong). -/
theorem calculateBasePrice_formula (d t : ℚ) :
    PricingEngine.calculateBasePrice d t =
      max (d * Config.BASE_RATE_PER_KM + t * Config.BASE_RATE_PER_MIN + Config.AIRPORT_FEE)
        Config.MINIMUM_FARE ∧
    PricingEngine.calculateBasePrice 10 15 = 61 / 2 := by
  refine ⟨rfl, ?_⟩
  norm_num [PricingEngine.calculateBasePrice, Config.BASE_RATE_PER_KM,
    Config.BASE_RATE_PER_MIN, Config.AIRPORT_FEE, Config.MINIMUM_FARE, max_def]

/-- C6 (confirmed): `calculatePoolingDiscount` equals
`max(min((passengerCount − 1) × 0.15, 0.45) − detourFraction × 0.3, 0.10)`;
for `detourFraction ∈ [0, 1]` it never exceeds `0.45`, never falls below
`0.10`, and at detour 0 it is non-decreasing in the passenger count. -/
theorem calculatePoolingDiscount_formula_bounds_mono (n d : ℚ)
    (hn : 1 ≤ n) (hd0 : 0 ≤ d) (hd1 : d ≤ 1) :
    PricingEngine.calculatePoolingDiscount n d =
      max (min ((n - 1) * (15 / 100)) (45 / 100) - d * (3 / 10)) (1 / 10) ∧
    PricingEngine.calculatePoolingDiscount n d ≤ 45 / 100 ∧
    1 / 10 ≤ PricingEngine.calculatePoolingDiscount n d ∧
    (∀ m m' : ℚ, m ≤ m' →
      PricingEngine.calculatePoolingDiscount m 0 ≤
        PricingEngine.calculatePoolingDiscount m' 0) := by
  refine ⟨rfl, ?_, ?_, ?_⟩
  · unfold PricingEngine.calculatePoolingDiscount
    apply max_le
    · have h1 : min ((n - 1) * (15 / 100)) (45 / 100) ≤ 45 / 100 := min_le_right _ _
      nlinarith
    · norm_num
  · exact le_max_right _ _
  · intro m m' h
    simp only [PricingEngine.calculatePoolingDiscount]
    refine max_le_max (sub_le_sub_right (min_le_min ?_ le_rfl) _) le_rfl
    nlinarith

/-- Witness for C6 at `passengerCount = 3`, `detourFraction = 0.1`. -/
theorem calculatePoolingDiscount_formula_bounds_mono_witness :
    PricingEngine.calculatePoolingDiscount 3 (1 / 10) =
      max (min (((3 : ℚ) - 1) * (15 / 100)) (45 / 100) - (1 / 10) * (3 / 10)) (1 / 10) ∧
    PricingEngine.calculatePoolingDiscount 3 (1 / 10) ≤ 45 / 100 ∧
    1 / 10 ≤ PricingEngine.calculatePoolingDiscount 3 (1 / 10) ∧
    (∀ m m' : ℚ, m ≤ m' →
      PricingEngine.calculatePoolingDiscount m 0 ≤
        PricingEngine.calculatePoolingDiscount m' 0) :=
  calculatePoolingDiscount_formula_bounds_mono 3 (1 / 10) (by norm_num) (by norm_num)
    (by norm_num)

/-- C2 (confirmed): each successful pool mutation keeps the occupancy within
the vehicle capacity — `addToExistingPool` because it is gated by
`canAccommodate` and adds exactly the request's counts; `createNewPool`
because the request's schema-validated counts (`passengers ≤ 4`,
`luggage ≤ 6`) become the occupancy of a vehicle with the config capacities;
`cancelRide` because it only subtracts the removed passenger's nonnegative
counts from an occupancy already within capacity. -/
theorem pool_occupancy_within_capacity (α : Type) :
    (∀ (dist : α → α → ℚ) (hour : ℕ) (pool : RidePool α) (req : RideRequest α)
        (cd : MatchingEngine.DetourData α) (pool' : RidePool α) (price : ℚ),
        MatchingEngine.addToExistingPool dist hour pool req cd = some (pool', price) →
        pool'.currentOccupancy.seats ≤ pool'.vehicle.capacity ∧
        pool'.currentOccupancy.luggage ≤ pool'.vehicle.luggageCapacity) ∧
    (∀ (dist : α → α → ℚ) (req : RideRequest α),
        req.passengers ≤ Config.MAX_POOL_SIZE → req.luggage ≤ Config.MAX_LUGGAGE_PER_CAB →
        (MatchingEngine.createNewPool dist req).currentOccupancy.seats ≤
          (MatchingEngine.createNewPool dist req).vehicle.capacity ∧
        (MatchingEngine.createNewPool dist req).currentOccupancy.luggage ≤
          (MatchingEngine.createNewPool dist req).vehicle.luggageCapacity) ∧
    (∀ (dist : α → α → ℚ) (pool : RidePool α) (userId : ℕ) (pool' : RidePool α)
        (ups : List (ℕ × String)),
        pool.currentOccupancy.seats ≤ pool.vehicle.capacity →
        pool.currentOccupancy.luggage ≤ pool.vehicle.luggageCapacity →
        (∀ p ∈ pool.passengers, 0 ≤ p.passengerCount ∧ 0 ≤ p.luggageCount) →
        MatchingEngine.cancelRide dist pool userId = .ok (pool', ups) →
        pool'.currentOccupancy.seats ≤ pool'.vehicle.capacity ∧
        pool'.currentOccupancy.luggage ≤ pool'.vehicle.luggageCapacity) := by
  refine ⟨?_, ?_, ?_⟩
  · intro dist hour pool req cd pool' price h
    by_cases hc : pool.canAccommodate req.passengers req.luggage = true
    · have hc' := hc
      unfold RidePool.canAccommodate at hc'
      simp only [Bool.and_eq_true, decide_eq_true_eq] at hc'
      unfold MatchingEngine.addToExistingPool at h
      rw [if_pos hc] at h
      dsimp only at h
      split at h <;>
      · simp only [Option.some.injEq, Prod.mk.injEq] at h
        obtain ⟨h1, -⟩ := h
        subst h1
        dsimp only [RidePool.addPassenger]
        exact ⟨hc'.1, hc'.2⟩
    · unfold MatchingEngine.addToExistingPool at h
      rw [if_neg hc] at h
      exact absurd h (by simp)
  · intro dist req h1 h2
    exact ⟨h1, h2⟩
  · intro dist pool userId pool' ups hs hl hcounts h
    obtain ⟨q, hfind, hveh, hseats, hlug, -, -, -⟩ :=
      cancelRide_ok_destruct dist pool userId pool' ups h
    have hmem : q ∈ pool.passengers := List.mem_of_find?_eq_some hfind
    obtain ⟨hc1, hc2⟩ := hcounts q hmem
    rw [hveh, hseats, hlug]
    omega

/-- Witness for C2: a join into an empty forming pool, a fresh pool from a
schema-valid request, and a cancellation from a one-passenger pool, each
evaluated concretely. -/
theorem pool_occupancy_within_capacity_witness :
    (MatchingEngine.addToExistingPool (fun _ _ : ℚ => 0) 12
        ⟨.forming, [], ⟨[], 0, 0⟩, ⟨"sedan", 4, 6⟩, ⟨0, 0⟩, ⟨0, 1, 0, 0⟩, 0, none⟩
        ⟨7, 8, 0, "a", 0, "b", 1, 1, 3 / 10⟩ ⟨0, [], 0⟩ =
      some (⟨.forming, [⟨7, 8, 0, "a", 0, "b", 9 / 2, "waiting", 1, 1⟩], ⟨[], 0, 0⟩,
        ⟨"sedan", 4, 6⟩, ⟨1, 1⟩, ⟨0, 1, 0, 0⟩, 1, none⟩, 9 / 2) ∧
      (⟨.forming, [⟨7, 8, 0, "a", 0, "b", 9 / 2, "waiting", 1, 1⟩], ⟨[], 0, 0⟩,
        ⟨"sedan", 4, 6⟩, ⟨1, 1⟩, ⟨0, 1, 0, 0⟩, 1, none⟩ : RidePool ℚ).currentOccupancy.seats ≤
        (⟨.forming, [⟨7, 8, 0, "a", 0, "b", 9 / 2, "waiting", 1, 1⟩], ⟨[], 0, 0⟩,
        ⟨"sedan", 4, 6⟩, ⟨1, 1⟩, ⟨0, 1, 0, 0⟩, 1, none⟩ : RidePool ℚ).vehicle.capacity) ∧
    ((MatchingEngine.createNewPool (fun _ _ : ℚ => 0)
        ⟨7, 8, 0, "a", 0, "b", 2, 3, 3 / 10⟩).currentOccupancy.seats ≤
      (MatchingEngine.createNewPool (fun _ _ : ℚ => 0)
        ⟨7, 8, 0, "a", 0, "b", 2, 3, 3 / 10⟩).vehicle.capacity ∧
     (MatchingEngine.createNewPool (fun _ _ : ℚ => 0)
        ⟨7, 8, 0, "a", 0, "b", 2, 3, 3 / 10⟩).currentOccupancy.luggage ≤
      (MatchingEngine.createNewPool (fun _ _ : ℚ => 0)
        ⟨7, 8, 0, "a", 0, "b", 2, 3, 3 / 10⟩).vehicle.luggageCapacity) ∧
    (MatchingEngine.cancelRide (fun _ _ : ℚ => 0)
        ⟨.forming, [⟨5, 6, 0, "a", 0, "b", 1, "waiting", 1, 0⟩], ⟨[], 0, 0⟩,
          ⟨"sedan", 4, 6⟩, ⟨1, 0⟩, ⟨0, 1, 0, 0⟩, 0, none⟩ 5 =
      .ok (⟨.cancelled, [], ⟨[], 0, 0⟩, ⟨"sedan", 4, 6⟩, ⟨0, 0⟩, ⟨0, 1, 0, 0⟩, 1,
        some "All passengers cancelled"⟩, []) ∧
      (⟨.cancelled, [], ⟨[], 0, 0⟩, ⟨"sedan", 4, 6⟩, ⟨0, 0⟩, ⟨0, 1, 0, 0⟩, 1,
        some "All passengers cancelled"⟩ : RidePool ℚ).currentOccupancy.seats ≤
        (⟨.cancelled, [], ⟨[], 0, 0⟩, ⟨"sedan", 4, 6⟩, ⟨0, 0⟩, ⟨0, 1, 0, 0⟩, 1,
        some "All passengers cancelled"⟩ : RidePool ℚ).vehicle.capacity) := by
  have haddeq : MatchingEngine.addToExistingPool (fun _ _ : ℚ => 0) 12
      ⟨.forming, [], ⟨[], 0, 0⟩, ⟨"sedan", 4, 6⟩, ⟨0, 0⟩, ⟨0, 1, 0, 0⟩, 0, none⟩
      ⟨7, 8, 0, "a", 0, "b", 1, 1, 3 / 10⟩ ⟨0, [], 0⟩ =
      some (⟨.forming, [⟨7, 8, 0, "a", 0, "b", 9 / 2, "waiting", 1, 1⟩], ⟨[], 0, 0⟩,
        ⟨"sedan", 4, 6⟩, ⟨1, 1⟩, ⟨0, 1, 0, 0⟩, 1, none⟩, 9 / 2) := by
    norm_num [MatchingEngine.addToExistingPool, RidePool.canAccommodate,
      RidePool.addPassenger, MatchingEngine.applyRouteFrom,
      PricingEngine.calculatePassengerPrice, PricingEngine.calculateBasePrice,
      PricingEngine.calculatePoolingDiscount, PricingEngine.getTimeMultiplier,
      PricingEngine.getDistanceDiscount, DistanceCalculator.estimateDuration,
      jsRound2, Config.BASE_RATE_PER_KM, Config.BASE_RATE_PER_MIN,
      Config.AIRPORT_FEE, Config.MINIMUM_FARE, max_def]
  have hcanceq : MatchingEngine.cancelRide (fun _ _ : ℚ => 0)
      ⟨.forming, [⟨5, 6, 0, "a", 0, "b", 1, "waiting", 1, 0⟩], ⟨[], 0, 0⟩,
        ⟨"sedan", 4, 6⟩, ⟨1, 0⟩, ⟨0, 1, 0, 0⟩, 0, none⟩ 5 =
      .ok (⟨.cancelled, [], ⟨[], 0, 0⟩, ⟨"sedan", 4, 6⟩, ⟨0, 0⟩, ⟨0, 1, 0, 0⟩, 1,
        some "All passengers cancelled"⟩, []) := by
    norm_num [MatchingEngine.cancelRide, RidePool.removePassenger,
      DistanceCalculator.calculateRouteDistance, DistanceCalculator.resequenceFrom,
      DistanceCalculator.estimateDuration]
  refine ⟨⟨haddeq, ?_⟩, ?_, hcanceq, ?_⟩
  · exact ((pool_occupancy_within_capacity ℚ).1 _ 12 _ _ _ _ _ haddeq).1
  · exact (pool_occupancy_within_capacity ℚ).2.1 (fun _ _ => 0)
      ⟨7, 8, 0, "a", 0, "b", 2, 3, 3 / 10⟩ (by norm_num [Config.MAX_POOL_SIZE])
      (by norm_num [Config.MAX_LUGGAGE_PER_CAB])
  · exact ((pool_occupancy_within_capacity ℚ).2.2 (fun _ _ => 0) _ 5 _ _
      (by norm_num) (by norm_num)
      (by intro p hp; simp only [List.mem_cons, List.not_mem_nil, or_false] at hp;
          subst hp; norm_num) hcanceq).1

/-- C7 (confirmed): cancelling the sole passenger of a pool whose occupancy
equals that passenger's seat and luggage counts succeeds, marks the pool
`cancelled` and leaves the occupancy at `{0, 0}`. -/
theorem cancelRide_sole_passenger {α : Type} (dist : α → α → ℚ) (pool : RidePool α)
    (p : Passenger α) (userId : ℕ) (hps : pool.passengers = [p]) (hu : p.userId = userId)
    (hs : pool.currentOccupancy.seats = p.passengerCount)
    (hl : pool.currentOccupancy.luggage = p.luggageCount) :
    ∃ pool' ups, MatchingEngine.cancelRide dist pool userId = .ok (pool', ups) ∧
      pool'.status = .cancelled ∧
      pool'.currentOccupancy.seats = 0 ∧ pool'.currentOccupancy.luggage = 0 := by
  cases hr : MatchingEngine.cancelRide dist pool userId with
  | error e =>
    exfalso
    have hfind : pool.passengers.find? (fun q => q.userId == userId) = some p := by
      rw [hps]; simp [hu]
    unfold MatchingEngine.cancelRide at hr
    rw [removePassenger_of_find pool userId p hfind] at hr
    dsimp only at hr
    split at hr <;> simp at hr
  | ok out =>
    obtain ⟨pool', ups⟩ := out
    obtain ⟨q, hfind, -, hseats, hlug, hpass, -, hstat⟩ :=
      cancelRide_ok_destruct dist pool userId pool' ups hr
    have hq : q = p := by
      rw [hps] at hfind
      simp [hu] at hfind
      exact hfind.symm
    subst hq
    have hemp : pool'.passengers = [] := by
      rw [hpass, hps]
      simp [hu]
    refine ⟨pool', ups, rfl, hstat hemp, ?_, ?_⟩
    · rw [hseats, hs]; ring
    · rw [hlug, hl]; ring

/-- Witness for C7: a concrete one-passenger pool with occupancy equal to
the passenger's counts. -/
theorem cancelRide_sole_passenger_witness :
    ∃ (pool' : RidePool ℚ) (ups : List (ℕ × String)),
      MatchingEngine.cancelRide (fun _ _ : ℚ => 0)
        ⟨.forming, [⟨9, 16, 0, "a", 0, "b", 1, "waiting", 2, 2⟩], ⟨[], 0, 0⟩,
          ⟨"sedan", 4, 6⟩, ⟨2, 2⟩, ⟨0, 1, 0, 0⟩, 0, none⟩ 9 = .ok (pool', ups) ∧
      pool'.status = .cancelled ∧
      pool'.currentOccupancy.seats = 0 ∧ pool'.currentOccupancy.luggage = 0 :=
  cancelRide_sole_passenger (fun _ _ : ℚ => 0)
    ⟨.forming, [⟨9, 16, 0, "a", 0, "b", 1, "waiting", 2, 2⟩], ⟨[], 0, 0⟩,
      ⟨"sedan", 4, 6⟩, ⟨2, 2⟩, ⟨0, 1, 0, 0⟩, 0, none⟩
    ⟨9, 16, 0, "a", 0, "b", 1, "waiting", 2, 2⟩ 9 rfl rfl rfl rfl

/-- C8 (corrected): as stated the claim fails — the engine makes a single
`SET NX` attempt per operation and, when an unexpired lock exists, throws an
error that propagates and fails the join or cancel outright; there is no
retry loop and no transient/retryable classification.  Amended: whenever an
unexpired lock is held for the pool key, `acquireLock` fails on its single
attempt and the whole `cancelRide` call returns that lock error. -/
theorem acquireLock_no_retry_fatal {α : Type} (dist : α → α → ℚ)
    (store : String → Option String) (newToken poolId : String)
    (poolLookup : Option (RidePool α)) (userId : ℕ) (t : String)
    (h : store ("pool:" ++ poolId) = some t) :
    MatchingEngine.acquireLock store ("pool:" ++ poolId) newToken =
      .error ("Failed to acquire lock for " ++ ("pool:" ++ poolId)) ∧
    MatchingEngine.cancelRideLocked dist store newToken poolId poolLookup userId =
      .error ("Failed to acquire lock for " ++ ("pool:" ++ poolId)) := by
  constructor
  · simp [MatchingEngine.acquireLock, h]
  · simp [MatchingEngine.cancelRideLocked, MatchingEngine.acquireLock, h]

/-- Counterexample for C8 as stated: with an unexpired lock held on
`pool:p1`, the cancel operation itself returns the lock-acquisition error —
the failure is fatal to the operation, not retried. -/
theorem lock_failure_fatal_counterexample :
    MatchingEngine.cancelRideLocked (fun _ _ : ℚ => 0)
      (fun k => if k = "pool:p1" then some "tok" else none) "t2" "p1"
      (some ⟨.forming, [], ⟨[], 0, 0⟩, ⟨"sedan", 4, 6⟩, ⟨0, 0⟩, ⟨0, 1, 0, 0⟩, 0, none⟩) 5 =
      .error "Failed to acquire lock for pool:p1" := by
  rfl

/-- Witness for C8's amended theorem at a concrete held lock. -/
theorem acquireLock_no_retry_fatal_witness :
    MatchingEngine.acquireLock (fun k => if k = "pool:p2" then some "old" else none)
      ("pool:" ++ "p2") "tokN" =
      .error ("Failed to acquire lock for " ++ ("pool:" ++ "p2")) ∧
    MatchingEngine.cancelRideLocked (fun _ _ : ℚ => 0)
      (fun k => if k = "pool:p2" then some "old" else none) "tokN" "p2"
      (none : Option (RidePool ℚ)) 3 =
      .error ("Failed to acquire lock for " ++ ("pool:" ++ "p2")) :=
  acquireLock_no_retry_fatal (fun _ _ : ℚ => 0)
    (fun k => if k = "pool:p2" then some "old" else none) "tokN" "p2" none 3 "old"
    (by simp)

/-- C9 (confirmed): a successful `cancelRide` issues no `RideRequest` status
update at all — the lookup that would select the passenger's request runs on
the pool's passenger list after the passenger has been filtered out, so it
finds nothing and the collected update list is empty; only the pool record
changes. -/
theorem cancelRide_issues_no_request_update {α : Type} (dist : α → α → ℚ)
    (pool : RidePool α) (userId : ℕ) (pool' : RidePool α) (ups : List (ℕ × String))
    (h : MatchingEngine.cancelRide dist pool userId = .ok (pool', ups)) : ups = [] := by
  obtain ⟨-, -, -, -, -, -, hups, -⟩ := cancelRide_ok_destruct dist pool userId pool' ups h
  exact hups

/-- Witness for C9: a concrete two-passenger pool; cancelling passenger 11
succeeds and the issued update list is empty. -/
theorem cancelRide_issues_no_request_update_witness :
    MatchingEngine.cancelRide (fun _ _ : ℚ => 0)
      ⟨.matched, [⟨11, 21, 0, "a", 0, "b", 1, "waiting", 1, 0⟩,
        ⟨12, 22, 0, "c", 0, "d", 1, "waiting", 1, 1⟩], ⟨[], 0, 0⟩,
        ⟨"sedan", 4, 6⟩, ⟨2, 1⟩, ⟨0, 1, 0, 0⟩, 3, none⟩ 11 =
      .ok (⟨.matched, [⟨12, 22, 0, "c", 0, "d", 1, "waiting", 1, 1⟩], ⟨[], 0, 0⟩,
        ⟨"sedan", 4, 6⟩, ⟨1, 1⟩, ⟨0, 1, 0, 0⟩, 4, none⟩, []) ∧
    ([] : List (ℕ × String)) = [] := by
  have heq : MatchingEngine.cancelRide (fun _ _ : ℚ => 0)
      ⟨.matched, [⟨11, 21, 0, "a", 0, "b", 1, "waiting", 1, 0⟩,
        ⟨12, 22, 0, "c", 0, "d", 1, "waiting", 1, 1⟩], ⟨[], 0, 0⟩,
        ⟨"sedan", 4, 6⟩, ⟨2, 1⟩, ⟨0, 1, 0, 0⟩, 3, none⟩ 11 =
      .ok (⟨.matched, [⟨12, 22, 0, "c", 0, "d", 1, "waiting", 1, 1⟩], ⟨[], 0, 0⟩,
        ⟨"sedan", 4, 6⟩, ⟨1, 1⟩, ⟨0, 1, 0, 0⟩, 4, none⟩, []) := by
    norm_num [MatchingEngine.cancelRide, RidePool.removePassenger,
      DistanceCalculator.calculateRouteDistance, DistanceCalculator.resequenceFrom,
      DistanceCalculator.estimateDuration]
  exact ⟨heq, cancelRide_issues_no_request_update (fun _ _ : ℚ => 0) _ 11 _ _ heq⟩

end ARP
